import Mathlib

/-!
Verification development for the bot-analytics monitor.

The definitions below are a shallow embedding of the repository's core:
the delivery client (`src/infrastructure/analytics_sdk.py`), the SQLite
repositories (`src/infrastructure/database/sqlite_repositories.py`), the
analytics service (`src/application/services/analytics_service.py`) and
the webhook server (`src/infrastructure/http/webhook_server.py`).

Modelling conventions:
* timestamps are integers; calendar dates obtained by `DATE(timestamp,
  'localtime')` are modelled at day granularity, so a row carries its day
  directly (none of the verified queries distinguishes finer resolution);
* the Python `deque` is a `List` whose head is the left (oldest) end:
  `popleft` is head removal, `append` is `++ [x]`, `appendleft` is cons;
* network delivery outcomes are inputs to the model (`AttemptOutcome`);
* SQLite tables are lists of rows; SQL `COUNT(DISTINCT ...)` is
  `List.dedup` followed by `List.length`.
-/

/-- `InteractionData` from `analytics_sdk.py`: one queued event of the
delivery client. -/
structure InteractionData where
  user_id : Int
  interaction_type : String
  username : Option String := none
  first_name : Option String := none
  last_name : Option String := none
  language_code : Option String := none
  message_text : Option String := none
  timestamp : Int
deriving Repr, DecidableEq

/-- Running counters of `AnalyticsSDK` (`sent_count`, `failed_count`,
`last_error`). -/
structure SdkCounters where
  sent_count : Nat
  failed_count : Nat
  last_error : Option String
deriving Repr, DecidableEq

/-- Outcome of one webhook POST attempt: either the transport raised, or a
response with an HTTP status code and body text came back. -/
inductive AttemptOutcome where
  | transportError (msg : String)
  | response (status : Nat) (body : String)
deriving Repr, DecidableEq

/-- Success test of `AnalyticsSDK._send_webhook`: the code checks
`if response.status == 200`; every other status and every transport
exception falls through to the retry path. -/
def attemptIsSuccess : AttemptOutcome → Bool
  | .response s _ => s == 200
  | .transportError _ => false

/-- Error string recorded in `last_error` for a failed attempt
(`f"HTTP {status}: {text}"` for a response, `str(e)` for an exception). -/
def attemptError : AttemptOutcome → String
  | .transportError m => m
  | .response s body => "HTTP " ++ toString s ++ ": " ++ body

/-- Retry loop of `AnalyticsSDK._send_webhook`: `outcomes i` is the result
of attempt number `i`, `n` attempts remain.  On a 200 response the sent
counter is bumped and the loop returns `true`; otherwise `last_error` is
recorded and the next attempt runs; when all attempts are spent the failed
counter is bumped and the loop returns `false`. -/
def send_webhook_loop (outcomes : Nat → AttemptOutcome) :
    Nat → Nat → SdkCounters → Bool × SdkCounters
  | 0, _, st => (false, { st with failed_count := st.failed_count + 1 })
  | n + 1, i, st =>
    let o := outcomes i
    if attemptIsSuccess o then
      (true, { st with sent_count := st.sent_count + 1 })
    else
      send_webhook_loop outcomes n (i + 1)
        { st with last_error := some (attemptError o) }

/-- `AnalyticsSDK._send_webhook`: up to `max_retries` attempts (backoff
sleeps are timing only and are not modelled). -/
def send_webhook (max_retries : Nat) (outcomes : Nat → AttemptOutcome)
    (st : SdkCounters) : Bool × SdkCounters :=
  send_webhook_loop outcomes max_retries 0 st

/-- `AnalyticsSDK._send_batch`: on a non-empty queue, drains up to
`batch_size` events from the front (`popleft` in a loop, so the drained
list is oldest first), posts them, and on failure pushes each drained
event back with `appendleft` in drain order — which leaves the drained
batch reversed at the front of the queue.  The boolean `success` is the
outcome of `_send_webhook` (network input to the model).  The
isoformat/fromisoformat round trip of the timestamps is the identity. -/
def send_batch (queue : List InteractionData) (batch_size : Nat)
    (success : Bool) : List InteractionData × Bool :=
  if queue.isEmpty then (queue, true)
  else
    let drained := queue.take batch_size
    let rest := queue.drop batch_size
    if success then (rest, true)
    else (drained.reverse ++ rest, false)

/-- `AnalyticsSDK._create_signature`: empty string when no secret is
configured (Python tests falsiness, so `None` and `""` both disable
signing), otherwise `"sha256=" ++ digest`.  The keyed digest
`hmacSha256Hex secret payload` abstracts `hmac.new(...).hexdigest()`,
which is library code outside the repository. -/
def create_signature (hmacSha256Hex : String → String → String)
    (webhook_secret : Option String) (payload : String) : String :=
  match webhook_secret with
  | none => ""
  | some secret =>
    if secret = "" then ""
    else "sha256=" ++ hmacSha256Hex secret payload

/-- Headers attached by `AnalyticsSDK._send_webhook`: always
`Content-Type`, plus the signature under the key `X-Hub-Signature-256`
when a (truthy) secret is configured. -/
def request_headers (hmacSha256Hex : String → String → String)
    (webhook_secret : Option String) (payload : String) :
    List (String × String) :=
  let base := [("Content-Type", "application/json")]
  match webhook_secret with
  | none => base
  | some secret =>
    if secret = "" then base
    else base ++
      [("X-Hub-Signature-256",
        create_signature hmacSha256Hex (some secret) payload)]

/-- `WebhookServer._verify_signature`: requires the `sha256=` prefix
(Python `startswith`, modelled as prefix-of on the character sequence),
then compares (constant-time in the source, plain equality here) against
`"sha256=" ++ hexdigest` of the raw body under the shared secret. -/
def verify_signature (hmacSha256Hex : String → String → String)
    (webhook_secret : String) (payload : String) (signature : String) :
    Bool :=
  if !("sha256=".data.isPrefixOf signature.data) then false
  else ("sha256=" ++ hmacSha256Hex webhook_secret payload) == signature

/-- Signature gate of the `/webhook/interaction` and `/webhook/batch`
routes: a request carrying a signature header is accepted only if it
verifies; a request without the header skips verification. -/
def endpoint_accepts_signature (hmacSha256Hex : String → String → String)
    (webhook_secret : String) (body : String)
    (sigHeader : Option String) : Bool :=
  match sigHeader with
  | none => true
  | some s => verify_signature hmacSha256Hex webhook_secret body s

/-- Report returned by `AnalyticsSDK.get_stats`; `success_rate` is modelled
as an exact rational. -/
structure SdkStatsReport where
  sent_count : Nat
  failed_count : Nat
  queued_count : Nat
  last_error : Option String
  success_rate : ℚ
deriving Repr, DecidableEq

/-- `AnalyticsSDK.get_stats`: `success_rate` is `sent / (sent + failed)`
when at least one outcome was recorded and `1.0` otherwise. -/
def get_stats (st : SdkCounters) (queue : List InteractionData) :
    SdkStatsReport :=
  { sent_count := st.sent_count
    failed_count := st.failed_count
    queued_count := queue.length
    last_error := st.last_error
    success_rate :=
      if st.sent_count + st.failed_count > 0 then
        (st.sent_count : ℚ) / ((st.sent_count : ℚ) + (st.failed_count : ℚ))
      else 1 }

/-- Row of the `bot_configs` table / the `BotConfig` dataclass of
`domain/models.py`.  `created_at` is an integer timestamp. -/
structure BotConfig where
  bot_id : String
  name : String
  token : String
  description : Option String := none
  created_at : Option Int := none
  is_active : Bool := true
deriving Repr, DecidableEq

/-- Row of the `user_interactions` table, reduced to the columns the
verified queries read: `bot_id`, `user_id` and the calendar day of the
timestamp (the display-metadata columns are written but never queried). -/
structure InteractionRow where
  bot_id : String
  user_id : Int
  day : Int
deriving Repr, DecidableEq

/-- `BotStats` of `domain/models.py`. -/
structure BotStats where
  bot_id : String
  bot_name : String
  total_users : Nat
  daily_active_users : Nat
  weekly_active_users : Nat
  monthly_active_users : Nat
  new_users_today : Nat
  total_interactions : Nat
  last_interaction : Option Int
deriving Repr, DecidableEq

/-- `ActivityTimeline` of `domain/models.py`, dates as integers. -/
structure ActivityTimeline where
  date : Int
  unique_users : Nat
  total_interactions : Nat
deriving Repr, DecidableEq

/-- SQL `COUNT(DISTINCT user_id)` over a list of rows. -/
def countDistinctUsers (rows : List InteractionRow) : Nat :=
  ((rows.map InteractionRow.user_id).dedup).length

/-- SQL `MIN(DATE(timestamp, 'localtime'))` of one user's rows, as used by
the `GROUP BY user_id` subquery of the new-users count (`none` when the
user has no row). -/
def minDay (rows : List InteractionRow) (u : Int) : Option Int :=
  ((rows.filter fun r => decide (r.user_id = u)).map InteractionRow.day).min?

/-- `SQLiteUserInteractionRepository.get_bot_stats`: each counter is one
SQL query over the `user_interactions` rows of `bot_id`.  The windows are
`DATE(timestamp) = today`, `today - 6 ≤ ... ≤ today` and
`today - 29 ≤ ... ≤ today`; the new-users count joins the rows with the
per-user `MIN(DATE(timestamp))` subquery and keeps users whose first
interaction day equals `today`; `last_interaction` is `MAX(timestamp)`
(`none` on no rows, as SQL `MAX` of nothing is `NULL`). -/
def get_bot_stats (configs : List BotConfig) (db : List InteractionRow)
    (bid : String) (today : Int) : BotStats :=
  let rows := db.filter fun r => r.bot_id == bid
  let bot_name :=
    match configs.find? fun c => c.bot_id == bid with
    | some c => c.name
    | none => "Unknown Bot"
  let t2 : List (Int × Int) :=
    ((rows.map InteractionRow.user_id).dedup).filterMap fun u =>
      (minDay rows u).map fun d => (u, d)
  let newRows := rows.filter fun r =>
    t2.any fun p => decide (p.1 = r.user_id) && decide (p.2 = today)
  { bot_id := bid
    bot_name := bot_name
    total_users := countDistinctUsers rows
    daily_active_users :=
      countDistinctUsers (rows.filter fun r => decide (r.day = today))
    weekly_active_users :=
      countDistinctUsers (rows.filter fun r =>
        decide (today - 6 ≤ r.day) && decide (r.day ≤ today))
    monthly_active_users :=
      countDistinctUsers (rows.filter fun r =>
        decide (today - 29 ≤ r.day) && decide (r.day ≤ today))
    new_users_today := countDistinctUsers newRows
    total_interactions := rows.length
    last_interaction := (rows.map InteractionRow.day).max? }

/-- `SQLiteUserInteractionRepository.get_activity_timeline`: the window is
the `days` calendar days ending today, so it starts at
`today + 1 - days`.  The SQL groups the bot's in-window rows by day; the
Python loop then walks every day of the window in order and emits the
grouped counts when the day has rows and an explicit zero entry when it
does not.  For a day inside the window the grouped rows are exactly the
bot's rows of that day, which is how the group is written below. -/
def get_activity_timeline (db : List InteractionRow) (bid : String)
    (today : Int) (days : Nat) : List ActivityTimeline :=
  let start := today + 1 - days
  (List.range days).map fun (i : Nat) =>
    let d := start + (i : Int)
    let dayRows := db.filter fun r => r.bot_id == bid && decide (r.day = d)
    if dayRows.isEmpty then ⟨d, 0, 0⟩
    else ⟨d, countDistinctUsers dayRows, dayRows.length⟩

/-- `AnalyticsService.get_bot_statistics`: looks the bot up in the
registry first and raises `ValueError` (modelled as `Except.error`) when
it has no registration; only a registered bot reaches the stats query. -/
def get_bot_statistics (configs : List BotConfig)
    (db : List InteractionRow) (bid : String) (today : Int) :
    Except String BotStats :=
  match configs.find? fun c => c.bot_id == bid with
  | none =>
    Except.error ("Bot with ID " ++ bid ++ " not found. Cannot retrieve stats.")
  | some _ => Except.ok (get_bot_stats configs db bid today)

/-- `AnalyticsService.track_interaction` on the webhook path
(`is_token=True`): resolves the credential with `get_by_token`; when no
registration matches it logs a warning and returns normally with nothing
recorded (no exception), otherwise it appends the interaction row.  The
result is `Except` so that the absence of an error path is visible. -/
def track_interaction (configs : List BotConfig)
    (db : List InteractionRow) (token : String) (u : Int) (day : Int) :
    Except String (List InteractionRow) :=
  match configs.find? fun c => c.token == token with
  | none => Except.ok db
  | some cfg => Except.ok (db ++ [⟨cfg.bot_id, u, day⟩])

/-- `SQLiteBotConfigRepository.create`: the INSERT raises
`sqlite3.IntegrityError` when the primary key `bot_id` or the UNIQUE
`token` collides, re-raised as `ValueError`; otherwise the row is stored
with `created_at or now` substituted for a missing timestamp.  The model
returns the updated table (the Python function returns the input config;
the table is the database state). -/
def create (table : List BotConfig) (cfg : BotConfig) (now : Int) :
    Except String (List BotConfig) :=
  if table.any fun c => c.bot_id == cfg.bot_id || c.token == cfg.token then
    Except.error "Could not create bot. ID or Token might already exist"
  else
    Except.ok (table ++ [{ cfg with created_at := some (cfg.created_at.getD now) }])

/-- `SQLiteBotConfigRepository.get_by_id`. -/
def get_by_id (table : List BotConfig) (bid : String) : Option BotConfig :=
  table.find? fun c => c.bot_id == bid

/-- `SQLiteBotConfigRepository.get_by_token`. -/
def get_by_token (table : List BotConfig) (token : String) : Option BotConfig :=
  table.find? fun c => c.token == token

/-- `SQLiteBotConfigRepository.delete`: removes the bot's interaction rows
first (manual cascade), then the registration; the returned flag is
`rowcount > 0` of the `bot_configs` DELETE. -/
def deleteBot (table : List BotConfig) (db : List InteractionRow)
    (bid : String) : List BotConfig × List InteractionRow × Bool :=
  let db2 := db.filter fun r => !(r.bot_id == bid)
  let table2 := table.filter fun c => !(c.bot_id == bid)
  (table2, db2, table.any fun c => c.bot_id == bid)

/-- Specification-side count for the new-users refinement: the number of
distinct users whose earliest-ever interaction day for the bot equals the
reference date.  This definition follows the spec's words; the code-side
count is the SQL join inside `get_bot_stats`. -/
def specNewUsersToday (db : List InteractionRow) (bid : String)
    (today : Int) : Nat :=
  let rows := db.filter fun r => r.bot_id == bid
  (((rows.map InteractionRow.user_id).dedup).filter fun u =>
    minDay rows u == some today).length

/-- Concrete queued event used in the failed-batch evaluation. -/
def sdkEventA : InteractionData :=
  { user_id := 1, interaction_type := "message", timestamp := 0 }

/-- Second concrete queued event, tracked after `sdkEventA`. -/
def sdkEventB : InteractionData :=
  { user_id := 2, interaction_type := "message", timestamp := 1 }

/-- Third concrete queued event, behind the drained batch. -/
def sdkEventC : InteractionData :=
  { user_id := 3, interaction_type := "command", timestamp := 2 }

/-- C1: evaluation of `_send_batch` at the failing input.  With queue
`[A, B, C]` (oldest first), `batch_size = 2` and a delivery that fails
after all retries, the code drains `[A, B]` and pushes the events back
with `appendleft` in drain order, leaving the queue `[B, A, C]` — the
drained batch comes back at the front but in reversed order, not in the
original oldest-first order `[A, B, C]` that the claim states. -/
theorem send_batch_failed_restore_reverses :
    send_batch [sdkEventA, sdkEventB, sdkEventC] 2 false
        = ([sdkEventB, sdkEventA, sdkEventC], false)
      ∧ ([sdkEventB, sdkEventA, sdkEventC] : List InteractionData)
          ≠ [sdkEventA, sdkEventB, sdkEventC] := by
  refine ⟨rfl, ?_⟩
  decide

/-- Helper for the retry-loop analysis: the loop succeeds exactly when one
of the remaining attempts returns HTTP 200, a success bumps `sent_count`
by one, and exhaustion bumps `failed_count` by one. -/
theorem send_webhook_loop_spec (outcomes : Nat → AttemptOutcome)
    (n : Nat) : ∀ (i : Nat) (st : SdkCounters),
    (send_webhook_loop outcomes n i st).1
        = (List.range n).any (fun j => attemptIsSuccess (outcomes (i + j)))
      ∧ ((send_webhook_loop outcomes n i st).1 = true →
          (send_webhook_loop outcomes n i st).2.sent_count = st.sent_count + 1
            ∧ (send_webhook_loop outcomes n i st).2.failed_count
                = st.failed_count)
      ∧ ((send_webhook_loop outcomes n i st).1 = false →
          (send_webhook_loop outcomes n i st).2.failed_count
              = st.failed_count + 1
            ∧ (send_webhook_loop outcomes n i st).2.sent_count
                = st.sent_count) := by
  induction n with
  | zero =>
    intro i st
    simp [send_webhook_loop]
  | succ n ih =>
    intro i st
    by_cases h : attemptIsSuccess (outcomes i) = true
    · refine ⟨?_, ?_, ?_⟩
      · simp only [send_webhook_loop, h, if_true]
        symm
        rw [List.any_eq_true]
        exact ⟨0, List.mem_range.mpr (Nat.succ_pos n), by simpa using h⟩
      · intro _
        simp [send_webhook_loop, h]
      · intro hf
        simp [send_webhook_loop, h] at hf
    · have h0 : attemptIsSuccess (outcomes i) = false := by
        revert h; cases attemptIsSuccess (outcomes i) <;> simp
      have hstep : send_webhook_loop outcomes (n + 1) i st
          = send_webhook_loop outcomes n (i + 1)
              { st with last_error := some (attemptError (outcomes i)) } := by
        simp [send_webhook_loop, h0]
      obtain ⟨e1, e2, e3⟩ :=
        ih (i + 1) { st with last_error := some (attemptError (outcomes i)) }
      refine ⟨?_, ?_, ?_⟩
      · rw [hstep, e1, List.range_succ_eq_map]
        simp only [List.any_cons, Nat.add_zero, h0, Bool.false_or,
          List.any_map]
        congr 1
        funext j
        simp only [Function.comp_apply]
        congr 2
        omega
      · intro ht
        rw [hstep] at ht ⊢
        exact e2 ht
      · intro hf
        rw [hstep] at hf ⊢
        exact e3 hf

/-- C2 (amended): a delivery attempt succeeds exactly when some attempt
within `max_retries` returns HTTP status 200 — any other status,
including the other 2xx codes, and any transport error is a failure; a
success increments `sent_count` and stops retrying, exhaustion increments
`failed_count`. -/
theorem send_webhook_success_iff_status200 (max_retries : Nat)
    (outcomes : Nat → AttemptOutcome) (st : SdkCounters) :
    ((send_webhook max_retries outcomes st).1 = true
        ↔ ∃ i, i < max_retries
            ∧ ∃ body, outcomes i = AttemptOutcome.response 200 body)
      ∧ ((send_webhook max_retries outcomes st).1 = true →
          (send_webhook max_retries outcomes st).2.sent_count
              = st.sent_count + 1
            ∧ (send_webhook max_retries outcomes st).2.failed_count
                = st.failed_count)
      ∧ ((send_webhook max_retries outcomes st).1 = false →
          (send_webhook max_retries outcomes st).2.failed_count
              = st.failed_count + 1
            ∧ (send_webhook max_retries outcomes st).2.sent_count
                = st.sent_count) := by
  obtain ⟨e1, e2, e3⟩ := send_webhook_loop_spec outcomes max_retries 0 st
  have hiff : ∀ o : AttemptOutcome,
      attemptIsSuccess o = true ↔ ∃ b, o = AttemptOutcome.response 200 b := by
    intro o
    cases o with
    | transportError m => simp [attemptIsSuccess]
    | response s b =>
      simp only [attemptIsSuccess, beq_iff_eq, AttemptOutcome.response.injEq]
      constructor
      · intro hs; exact ⟨b, hs, rfl⟩
      · rintro ⟨b2, hs, -⟩; exact hs
  refine ⟨?_, e2, e3⟩
  rw [show send_webhook max_retries outcomes st
      = send_webhook_loop outcomes max_retries 0 st from rfl, e1]
  rw [List.any_eq_true]
  constructor
  · rintro ⟨j, hj, hs⟩
    exact ⟨j, List.mem_range.mp hj, (hiff (outcomes j)).mp (by simpa using hs)⟩
  · rintro ⟨i, hi, b, hb⟩
    exact ⟨i, List.mem_range.mpr hi,
      by simpa using (hiff (outcomes i)).mpr ⟨b, hb⟩⟩

/-- C2 counterexample: an HTTP 204 response — a 2xx status — is treated as
a failure: after `max_retries = 3` attempts that all return 204 the
delivery reports failure, `sent_count` stays 0 and `failed_count` is
incremented, contradicting the claim that any 2xx status counts as a
successful delivery. -/
theorem send_webhook_204_counted_as_failure :
    (send_webhook 3 (fun _ => AttemptOutcome.response 204 "No Content")
        ⟨0, 0, none⟩).1 = false
      ∧ (send_webhook 3 (fun _ => AttemptOutcome.response 204 "No Content")
          ⟨0, 0, none⟩).2.sent_count = 0
      ∧ (send_webhook 3 (fun _ => AttemptOutcome.response 204 "No Content")
          ⟨0, 0, none⟩).2.failed_count = 1 := by
  refine ⟨rfl, rfl, rfl⟩

/-- C6: for a `bot_id` with no registration, the stats query of the
service raises (`ValueError`, modelled as `Except.error`) instead of
returning any `BotStats` value: the registry lookup runs before the
stats computation and short-circuits on `None`. -/
theorem get_bot_statistics_unknown_bot_errors (configs : List BotConfig)
    (db : List InteractionRow) (bid : String) (today : Int)
    (h : configs.find? (fun c => c.bot_id == bid) = none) :
    get_bot_statistics configs db bid today
      = Except.error
          ("Bot with ID " ++ bid ++ " not found. Cannot retrieve stats.") := by
  unfold get_bot_statistics
  rw [h]

/-- Witness for C6 at a concrete input: an empty registry and the bot id
`B7`. -/
theorem get_bot_statistics_unknown_bot_errors_witness :
    get_bot_statistics [] [] "B7" 0
      = Except.error
          ("Bot with ID " ++ "B7" ++ " not found. Cannot retrieve stats.") :=
  get_bot_statistics_unknown_bot_errors [] [] "B7" 0 rfl

/-- C7 counterexample: a submission whose well-formed credential matches
no registration is not rejected with an `UnknownBot` error — at the
concrete input (empty registry, token `tok-unknown`) the service returns
normally and the event is silently discarded: nothing is appended to the
interaction table and no error is produced. -/
theorem track_interaction_unknown_token_silent_drop :
    track_interaction [] [] "tok-unknown" 7 0 = Except.ok [] := rfl

/-- C7 (amended): a submission whose well-formed credential matches no
registration is silently dropped — the service logs a warning and
returns normally with the interaction table unchanged; no error is
surfaced to the caller (the webhook route has already answered
`accepted` before the background task runs). -/
theorem track_interaction_unknown_token_is_noop (configs : List BotConfig)
    (db : List InteractionRow) (token : String) (u : Int) (day : Int)
    (h : configs.find? (fun c => c.token == token) = none) :
    track_interaction configs db token u day = Except.ok db := by
  unfold track_interaction
  rw [h]

/-- Witness for the amended C7 at a concrete input: a one-row interaction
table survives unchanged and no error is raised. -/
theorem track_interaction_unknown_token_is_noop_witness :
    track_interaction [⟨"B1", "Bot", "tok1", none, some 0, true⟩]
        [⟨"B1", 3, 5⟩] "other-token" 9 2
      = Except.ok [⟨"B1", 3, 5⟩] :=
  track_interaction_unknown_token_is_noop
    [⟨"B1", "Bot", "tok1", none, some 0, true⟩] [⟨"B1", 3, 5⟩]
    "other-token" 9 2 rfl

/-- C9 counterexample: at the concrete input (secret `k`, digest function
returning `d0`, body `body`) the signed request carries no header named
`X-Signature`; the signature travels under the key `X-Hub-Signature-256`. -/
theorem request_headers_no_x_signature_key :
    (request_headers (fun _ _ => "d0") (some "k") "body").lookup "X-Signature"
        = none
      ∧ (request_headers (fun _ _ => "d0") (some "k") "body").lookup
          "X-Hub-Signature-256" = some "sha256=d0" := by
  exact ⟨by decide, by decide⟩

/-- C9 (amended): with signing enabled (a non-empty secret), the client
attaches a header named `X-Hub-Signature-256` whose value is `sha256=`
followed by the keyed digest of the raw serialized body, and the
receiving endpoint accepts a request carrying a signature header exactly
when that value verifies against the same raw body. -/
theorem request_headers_signature_round_trip
    (hm : String → String → String) (secret payload : String)
    (h : secret ≠ "") :
    (request_headers hm (some secret) payload).lookup "X-Hub-Signature-256"
        = some ("sha256=" ++ hm secret payload)
      ∧ ∀ sig, (endpoint_accepts_signature hm secret payload (some sig) = true
          ↔ sig = "sha256=" ++ hm secret payload) := by
  constructor
  · simp only [request_headers, create_signature, if_neg h]
    rfl
  · intro sig
    simp only [endpoint_accepts_signature, verify_signature]
    by_cases hp : "sha256=".data.isPrefixOf sig.data
    · rw [if_neg (by simp [hp])]
      constructor
      · intro he
        exact (beq_iff_eq.mp he).symm
      · intro he
        rw [he]
        exact beq_self_eq_true _
    · rw [if_pos (by simp [hp])]
      constructor
      · intro hfalse
        exact absurd hfalse (by simp)
      · intro he
        exfalso
        apply hp
        rw [he, List.isPrefixOf_iff_prefix]
        have : ("sha256=" ++ hm secret payload).data
            = "sha256=".data ++ (hm secret payload).data := String.data_append ..
        rw [this]
        exact List.prefix_append _ _

/-- Witness for the amended C9 at a concrete input: secret `k`, body `p`,
digest function returning `ab`. -/
theorem request_headers_signature_round_trip_witness :
    (request_headers (fun _ _ => "ab") (some "k") "p").lookup
        "X-Hub-Signature-256" = some ("sha256=" ++ "ab")
      ∧ (endpoint_accepts_signature (fun _ _ => "ab") "k" "p"
            (some "sha256=ab") = true
          ↔ ("sha256=ab" : String) = "sha256=" ++ "ab") := by
  have h := request_headers_signature_round_trip (fun _ _ => "ab") "k" "p"
    (by decide)
  exact ⟨h.1, h.2 "sha256=ab"⟩

/-- C10: the diagnostics snapshot reports `success_rate` as
`sent / (sent + failed)` once at least one delivery outcome was recorded
and as exactly `1` before any outcome; in every state the reported rate
lies in the closed interval `[0, 1]`. -/
theorem get_stats_success_rate_bounds (st : SdkCounters)
    (queue : List InteractionData) :
    (st.sent_count + st.failed_count = 0 →
        (get_stats st queue).success_rate = 1)
      ∧ (0 < st.sent_count + st.failed_count →
          (get_stats st queue).success_rate
            = (st.sent_count : ℚ)
                / ((st.sent_count : ℚ) + (st.failed_count : ℚ)))
      ∧ 0 ≤ (get_stats st queue).success_rate
      ∧ (get_stats st queue).success_rate ≤ 1 := by
  have hr : (get_stats st queue).success_rate
      = if st.sent_count + st.failed_count > 0 then
          (st.sent_count : ℚ) / ((st.sent_count : ℚ) + (st.failed_count : ℚ))
        else 1 := rfl
  rw [hr]
  by_cases h : 0 < st.sent_count + st.failed_count
  · rw [if_pos h]
    have hd : (0 : ℚ) < (st.sent_count : ℚ) + (st.failed_count : ℚ) := by
      exact_mod_cast h
    refine ⟨fun h0 => absurd h0 (by omega), fun _ => rfl, ?_, ?_⟩
    · exact div_nonneg (by positivity) hd.le
    · rw [div_le_one hd]
      exact le_add_of_nonneg_right (by positivity)
  · rw [if_neg h]
    refine ⟨fun _ => rfl, fun h0 => absurd h0 h, by norm_num, le_refl 1⟩

/-- Helper: `find?` over an append skips a block in which every element
fails the predicate. -/
theorem find?_append_of_none {α : Type} (p : α → Bool) (l₁ l₂ : List α)
    (h : ∀ x ∈ l₁, p x = false) :
    (l₁ ++ l₂).find? p = l₂.find? p := by
  rw [List.find?_append]
  rw [List.find?_eq_none.mpr fun x hx => by simp [h x hx]]
  rfl

/-- C8: registering a fresh bot (no id or token collision, `created_at`
set, as `add_bot` always does) then looking it up by id and by token
returns the identical registration; deleting that bot removes its
interaction rows with it, and a subsequent stats lookup for the id fails
with the not-found error. -/
theorem bot_registry_round_trip_and_cascade (table : List BotConfig)
    (db : List InteractionRow) (cfg : BotConfig) (now today : Int)
    (hfresh : (table.any fun c =>
        c.bot_id == cfg.bot_id || c.token == cfg.token) = false)
    (hts : cfg.created_at.isSome = true) :
    create table cfg now = Except.ok (table ++ [cfg])
      ∧ get_by_id (table ++ [cfg]) cfg.bot_id = some cfg
      ∧ get_by_token (table ++ [cfg]) cfg.token = some cfg
      ∧ ((deleteBot (table ++ [cfg]) db cfg.bot_id).2.1.all fun r =>
          !(r.bot_id == cfg.bot_id)) = true
      ∧ get_bot_statistics (deleteBot (table ++ [cfg]) db cfg.bot_id).1
          (deleteBot (table ++ [cfg]) db cfg.bot_id).2.1 cfg.bot_id today
        = Except.error ("Bot with ID " ++ cfg.bot_id
            ++ " not found. Cannot retrieve stats.") := by
  have hnone : ∀ c ∈ table,
      (c.bot_id == cfg.bot_id || c.token == cfg.token) = false := by
    intro c hc
    simpa using List.any_eq_false.mp hfresh c hc
  have hid : ∀ c ∈ table, (c.bot_id == cfg.bot_id) = false := by
    intro c hc
    have h := hnone c hc
    revert h
    cases c.bot_id == cfg.bot_id <;> simp
  have htok : ∀ c ∈ table, (c.token == cfg.token) = false := by
    intro c hc
    have h := hnone c hc
    revert h
    cases c.token == cfg.token <;> simp
  refine ⟨?_, ?_, ?_, ?_, ?_⟩
  · have hstore : { cfg with created_at := some (cfg.created_at.getD now) }
        = cfg := by
      obtain ⟨a, b, c, dsc, ca, act⟩ := cfg
      cases ca with
      | none => simp at hts
      | some t => rfl
    simp [create, hfresh, hstore]
  · unfold get_by_id
    rw [find?_append_of_none _ _ _ hid]
    simp [List.find?]
  · unfold get_by_token
    rw [find?_append_of_none _ _ _ htok]
    simp [List.find?]
  · simp only [deleteBot]
    rw [List.all_eq_true]
    intro r hr
    exact (List.mem_filter.mp hr).2
  · have h2 : List.find? (fun c => c.bot_id == cfg.bot_id)
        ((table ++ [cfg]).filter fun c => !(c.bot_id == cfg.bot_id))
          = none := by
      apply List.find?_eq_none.mpr
      intro c hc
      have hmem := (List.mem_filter.mp hc).2
      simp only [Bool.not_eq_true'] at hmem
      simp [hmem]
    simp only [deleteBot, get_bot_statistics]
    rw [h2]

/-- Witness for C8 at a concrete input: empty registry plus a foreign
interaction row; the bot `B1` with token `tok` is registered and then
found again by id. -/
theorem bot_registry_round_trip_and_cascade_witness :
    get_by_id ([] ++ [(⟨"B1", "Bot", "tok", none, some 5, true⟩ : BotConfig)])
        "B1"
      = some (⟨"B1", "Bot", "tok", none, some 5, true⟩ : BotConfig) :=
  (bot_registry_round_trip_and_cascade [] [⟨"B9", 1, 0⟩]
    ⟨"B1", "Bot", "tok", none, some 5, true⟩ 9 0 rfl rfl).2.1

/-- C5: a registered bot with no recorded interactions gets every counter
of `BotStats` equal to zero and `last_interaction = none`; and for every
bot and window length `n` the activity timeline has exactly `n` entries,
one per day of the trailing window ending today, with an explicit
zero-valued entry for every day without activity. -/
theorem stats_zero_and_timeline_complete (configs : List BotConfig)
    (db : List InteractionRow) (bid : String) (d today : Int) (n : Nat) :
    ((db.filter fun r => r.bot_id == bid) = [] →
        (get_bot_stats configs db bid d).total_users = 0
          ∧ (get_bot_stats configs db bid d).daily_active_users = 0
          ∧ (get_bot_stats configs db bid d).weekly_active_users = 0
          ∧ (get_bot_stats configs db bid d).monthly_active_users = 0
          ∧ (get_bot_stats configs db bid d).new_users_today = 0
          ∧ (get_bot_stats configs db bid d).total_interactions = 0
          ∧ (get_bot_stats configs db bid d).last_interaction = none)
      ∧ (get_activity_timeline db bid today n).length = n
      ∧ (∀ i : Nat, i < n →
          ((get_activity_timeline db bid today n)[i]?.map
            ActivityTimeline.date) = some (today + 1 - n + i))
      ∧ (∀ i : Nat, i < n →
          (db.filter fun r =>
              r.bot_id == bid && decide (r.day = today + 1 - n + i)) = [] →
          (get_activity_timeline db bid today n)[i]?
            = some ⟨today + 1 - n + i, 0, 0⟩) := by
  refine ⟨?_, ?_, ?_, ?_⟩
  · intro h
    simp [get_bot_stats, countDistinctUsers, h]
  · simp only [get_activity_timeline, List.length_map, List.length_range]
  · intro i hi
    simp only [get_activity_timeline]
    rw [List.getElem?_map, List.getElem?_range hi]
    simp only [Option.map_some']
    congr 1
    by_cases hc : (db.filter fun r =>
        r.bot_id == bid && decide (r.day = today + 1 - n + i)).isEmpty
    · rw [if_pos hc]
    · rw [if_neg hc]
  · intro i hi hempty
    simp only [get_activity_timeline]
    rw [List.getElem?_map, List.getElem?_range hi]
    simp only [Option.map_some']
    rw [hempty]
    rfl

/-- C3: for bot `B1` with interactions by user 42 on days `D-8`, `D-1`
and `D`, the stats query at reference date `D` reports one total user,
one daily / weekly / monthly active user, zero new users today (the
first interaction was on `D-8`) and three total interactions: the
8-day-old interaction falls outside the closed 7-day window
`[D-6, D]` but inside the closed 30-day window `[D-29, D]`. -/
theorem bot_stats_concrete_scenario (d : Int) :
    (get_bot_stats [⟨"B1", "Bot One", "tok1", none, some 0, true⟩]
        [⟨"B1", 42, d - 8⟩, ⟨"B1", 42, d - 1⟩, ⟨"B1", 42, d⟩] "B1" d).total_users
          = 1
      ∧ (get_bot_stats [⟨"B1", "Bot One", "tok1", none, some 0, true⟩]
          [⟨"B1", 42, d - 8⟩, ⟨"B1", 42, d - 1⟩, ⟨"B1", 42, d⟩] "B1"
            d).daily_active_users = 1
      ∧ (get_bot_stats [⟨"B1", "Bot One", "tok1", none, some 0, true⟩]
          [⟨"B1", 42, d - 8⟩, ⟨"B1", 42, d - 1⟩, ⟨"B1", 42, d⟩] "B1"
            d).weekly_active_users = 1
      ∧ (get_bot_stats [⟨"B1", "Bot One", "tok1", none, some 0, true⟩]
          [⟨"B1", 42, d - 8⟩, ⟨"B1", 42, d - 1⟩, ⟨"B1", 42, d⟩] "B1"
            d).monthly_active_users = 1
      ∧ (get_bot_stats [⟨"B1", "Bot One", "tok1", none, some 0, true⟩]
          [⟨"B1", 42, d - 8⟩, ⟨"B1", 42, d - 1⟩, ⟨"B1", 42, d⟩] "B1"
            d).new_users_today = 0
      ∧ (get_bot_stats [⟨"B1", "Bot One", "tok1", none, some 0, true⟩]
          [⟨"B1", 42, d - 8⟩, ⟨"B1", 42, d - 1⟩, ⟨"B1", 42, d⟩] "B1"
            d).total_interactions = 3 := by
  have e1 : (d - 8 = d) = False := eq_false (by omega)
  have e2 : (d - 1 = d) = False := eq_false (by omega)
  have e3 : (d - 6 ≤ d - 8) = False := eq_false (by omega)
  have e4 : (d - 6 ≤ d - 1) = True := eq_true (by omega)
  have e5 : (d - 6 ≤ d) = True := eq_true (by omega)
  have e6 : (d - 1 ≤ d) = True := eq_true (by omega)
  have e7 : (d - 8 ≤ d) = True := eq_true (by omega)
  have e8 : (d - 29 ≤ d - 8) = True := eq_true (by omega)
  have e9 : (d - 29 ≤ d - 1) = True := eq_true (by omega)
  have e10 : (d - 29 ≤ d) = True := eq_true (by omega)
  have hmin : min (min (d - 8) (d - 1)) d = d - 8 := by omega
  have f1 : (d ≤ d - 8 + 6) = False := eq_false (by omega)
  have f2 : (d ≤ d - 1 + 6) = True := eq_true (by omega)
  have f3 : (d ≤ d + 6) = True := eq_true (by omega)
  have g1 : (d ≤ d - 8 + 29) = True := eq_true (by omega)
  have g2 : (d ≤ d - 1 + 29) = True := eq_true (by omega)
  have g3 : (d ≤ d + 29) = True := eq_true (by omega)
  have hmin2 : (min (d - 8) (d - 1) = d) = False := eq_false (by omega)
  simp +decide [get_bot_stats, countDistinctUsers, minDay, List.min?,
    List.dedup_cons_of_mem, List.dedup_cons_of_not_mem,
    e1, e2, e3, e4, e5, e6, e7, e8, e9, e10, hmin, hmin2,
    f1, f2, f3, g1, g2, g3]

/-- Helper: membership in the per-user first-interaction subquery (the
`GROUP BY user_id` table `T2` of the new-users SQL). -/
theorem t2_mem_iff (rows : List InteractionRow) (p : Int × Int) :
    p ∈ (((rows.map InteractionRow.user_id).dedup).filterMap fun u =>
        (minDay rows u).map fun dm => (u, dm))
      ↔ p.1 ∈ (rows.map InteractionRow.user_id).dedup
          ∧ minDay rows p.1 = some p.2 := by
  simp only [List.mem_filterMap, Option.map_eq_some']
  constructor
  · rintro ⟨u, hu, dm, hdm, rfl⟩
    exact ⟨hu, hdm⟩
  · rintro ⟨h1, h2⟩
    exact ⟨p.1, h1, p.2, h2, rfl⟩

/-- Helper: on rows of the table, the SQL join condition of the new-users
count is the same as testing the row's user's first interaction day. -/
theorem newRows_filter_eq (rows : List InteractionRow) (today : Int) :
    (rows.filter fun r =>
        (((rows.map InteractionRow.user_id).dedup).filterMap fun u =>
          (minDay rows u).map fun dm => (u, dm)).any
            fun p => decide (p.1 = r.user_id) && decide (p.2 = today))
      = rows.filter fun r => minDay rows r.user_id == some today := by
  apply List.filter_congr
  intro r hr
  cases hb : (minDay rows r.user_id == some today) with
  | false =>
    apply List.any_eq_false.mpr
    intro p hp
    obtain ⟨h1, h2⟩ := (t2_mem_iff rows p).mp hp
    simp only [Bool.and_eq_true, decide_eq_true_eq, not_and]
    intro hpe hde
    apply beq_eq_false_iff_ne.mp hb
    rw [← hpe, h2, hde]
  | true =>
    rw [List.any_eq_true]
    refine ⟨(r.user_id, today), ?_, by simp⟩
    refine (t2_mem_iff rows _).mpr ⟨?_, ?_⟩
    · exact List.mem_dedup.mpr (List.mem_map_of_mem _ hr)
    · exact beq_iff_eq.mp hb

/-- Helper: counting distinct users of the rows that satisfy a per-user
predicate equals filtering the deduplicated user list directly. -/
theorem count_filter_by_user (rows : List InteractionRow) (q : Int → Bool) :
    ((rows.filter fun r => q r.user_id).map InteractionRow.user_id).dedup.length
      = ((rows.map InteractionRow.user_id).dedup.filter q).length := by
  have h1 : (rows.filter fun r => q r.user_id).map InteractionRow.user_id
      = (rows.map InteractionRow.user_id).filter q :=
    (List.filter_map ..).symm
  rw [h1]
  generalize rows.map InteractionRow.user_id = xs
  have hnd : (xs.dedup.filter q).Nodup := (List.nodup_dedup xs).filter q
  rw [← List.card_toFinset, List.toFinset_filter,
    ← List.toFinset_card_of_nodup hnd, List.toFinset_filter]
  congr 1
  ext a
  simp [List.mem_toFinset, List.mem_dedup]

/-- C4: the `new_users_today` counter computed by the SQL join equals the
number of distinct users whose earliest-ever interaction day for the bot
is the reference date; in particular a user who interacted today but
whose first interaction was earlier contributes 0 even though they are
daily-active. -/
theorem new_users_today_counts_first_time_users (configs : List BotConfig)
    (db : List InteractionRow) (bid : String) (today : Int) :
    (get_bot_stats configs db bid today).new_users_today
      = specNewUsersToday db bid today := by
  have hproj : (get_bot_stats configs db bid today).new_users_today
      = countDistinctUsers ((db.filter fun r => r.bot_id == bid).filter fun r =>
          (((db.filter fun r => r.bot_id == bid).map
            InteractionRow.user_id).dedup.filterMap fun u =>
              (minDay (db.filter fun r => r.bot_id == bid) u).map fun dm =>
                (u, dm)).any fun p =>
                  decide (p.1 = r.user_id) && decide (p.2 = today)) := rfl
  rw [hproj]
  unfold countDistinctUsers specNewUsersToday
  rw [newRows_filter_eq]
  exact count_filter_by_user (db.filter fun r => r.bot_id == bid)
    (fun u => minDay (db.filter fun r => r.bot_id == bid) u == some today)
